import Mathlib

/-!
Shallow embedding of the nilpay/ledger core (src/balances.go) over an
explicit model of the DynamoDB-backed state, together with theorems
checking the natural-language specification against it.

Amounts (Go `float64`) are modelled as exact rationals; version tokens
(Go `int64`) as integers.  Remote-call outcomes that are not determined
by the store contents (backend errors, marshalling errors, the values
returned by `ksuid.New` and `getCurrentTimestamp`) are passed in
explicitly through an `Env` record, so every run of the embedded
coordinator is a deterministic function of the store, the request and
that environment.
-/

namespace Ledger

/-- A row of the `NilUsers` table: key (TenantID, AccountID), with the
`amount` balance attribute and the optional `Version` attribute
(`attribute_not_exists(Version)` is a live branch of the code's
condition expressions, so the attribute is modelled as optional). -/
structure UserItem where
  tenantID : String
  accountID : String
  amount : Rat
  version : Option Int
deriving Repr, DecidableEq

/-- A row of the `LedgerTable`, as built in `TransferCredits`
(fields of the Go `LedgerEntry` literal at src/balances.go:319-336). -/
structure LedgerEntry where
  tenantID : String
  accountID : String
  amount : Rat
  systemTransactionID : String
  type : String
  time : Int
  initiatorUUID : String
deriving Repr, DecidableEq

/-- A row of the `TransactionsTable`: the audit record of one transfer
attempt.  `transactionID` is the `TransactionID` attribute used as the
row's key by `GetTransaction`/`UpdateTransaction` and as the pagination
cursor by `GetTransactions`; it carries the generated
system transaction id. -/
structure TxRecord where
  tenantID : String
  accountID : String
  transactionID : String
  fromAccount : String
  toAccount : String
  amount : Rat
  comment : String
  transactionDate : Int
  status : Int
  initiatorUUID : String
deriving Repr, DecidableEq

/-- The Go `TransactionEntry` request/record struct (declared outside
src/; its fields are taken from their uses in src/balances.go:253-264
and the spec's TransactionRecord description). -/
structure TransactionEntry where
  tenantID : String := ""
  accountID : String := ""
  systemTransactionID : String := ""
  fromAccount : String := ""
  toAccount : String := ""
  amount : Rat := 0
  comment : String := ""
  transactionDate : Int := 0
  status : Option Int := none
  initiatorUUID : String := ""
  signedUUID : String := ""
  timestamp : Int := 0
deriving Repr, DecidableEq

/-- The Go `User` struct as used here: the unmarshalled view of a
`NilUsers` row (`Amount float64`, `Version int64`; a missing `Version`
attribute unmarshals to 0). -/
structure User where
  accountID : String
  amount : Rat
  version : Int
deriving Repr, DecidableEq

/-- The `data` payload of a `NilResponse`. -/
structure RespData where
  transactionID : String := ""
  amount : Rat := 0
  currency : String := ""
  uuid : String := ""
  signedUUID : String := ""
deriving Repr, DecidableEq

/-- The Go `NilResponse` result struct (fields from its literals in
src/balances.go). -/
structure NilResponse where
  status : String := ""
  code : String := ""
  message : String := ""
  details : String := ""
  timestamp : Int := 0
  data : RespData := {}
deriving Repr, DecidableEq

/-- The whole store: the three DynamoDB tables, each as an ordered list
of rows. -/
structure DB where
  users : List UserItem := []
  ledger : List LedgerEntry := []
  transactions : List TxRecord := []
deriving Repr, DecidableEq

/-- Outcome of a call to the coordinator: a normal Go return
`(NilResponse, error)` with nil error, with non-nil error (carrying the
error's message), or a `panic`. -/
inductive Outcome where
  | ok (resp : NilResponse)
  | err (resp : NilResponse) (msg : String)
  | panicked (msg : String)
deriving Repr, DecidableEq

/-- Environment of one `TransferCredits` run: the generated ksuid, the
values returned by the successive `getCurrentTimestamp()` calls, and
one flag per remote call that can fail for reasons not determined by
the store contents (backend/storage errors, marshalling errors). -/
structure Env where
  uid : String := "tx"
  now : Int := 0
  debitNow : Int := 0
  creditNow : Int := 0
  rollbackNow : Int := 0
  senderGetFails : Bool := false
  receiverGetFails : Bool := false
  marshalDebitFails : Bool := false
  marshalCreditFails : Bool := false
  debitTxFails : Bool := false
  creditTxFails : Bool := false
  rollbackFails : Bool := false
  saveFails : Bool := false
deriving Repr, DecidableEq

/-- The tenant-substitution idiom repeated at the top of every public
operation: an empty tenant id is replaced by the sentinel "nil". -/
def defaultTenant (tenantId : String) : String :=
  if tenantId = "" then "nil" else tenantId

/-- Point read of the `NilUsers` table at key (tenant, account). -/
def findUser (db : DB) (tenant acct : String) : Option UserItem :=
  db.users.find? (fun u => u.tenantID = tenant ∧ u.accountID = acct)

/-- The effect of `SET amount = amount + :delta, Version = :v` on one
row, applied when the row is the one at key (tenant, acct). -/
def adjustUser (tenant acct : String) (delta : Rat) (newVersion : Int) (u : UserItem) : UserItem :=
  if u.tenantID = tenant ∧ u.accountID = acct then
    { u with amount := u.amount + delta, version := some newVersion }
  else u

/-- The store-level effect of `SET amount = amount - :a, Version = :v`
(resp. `+`) at key (tenant, acct): the matching row's balance is shifted
by `delta` and its version replaced by the fresh token. -/
def applyAdjust (db : DB) (tenant acct : String) (delta : Rat) (newVersion : Int) : DB :=
  { db with users := db.users.map (adjustUser tenant acct delta newVersion) }

/-- Whether the conditional update
`ConditionExpression: attribute_not_exists(Version) OR Version = :oldVersion`,
`UpdateExpression: SET amount = amount - :amount, ...`, succeeds at key
(tenant, acct): the row must exist (the arithmetic update expression
needs the `amount` operand) and its `Version` attribute must be absent
or equal to the expected token. -/
def versionCondOK (db : DB) (tenant acct : String) (oldVersion : Int) : Bool :=
  match findUser db tenant acct with
  | none => false
  | some u =>
    match u.version with
    | none => true
    | some v => v == oldVersion

/-- Whether the credit-side condition
`attribute_exists(AccountID) AND TenantID = :tenantID` holds at key
(tenant, acct): the row at that key exists (its TenantID then equals
the supplied tenant by the key equality). -/
def receiverCondOK (db : DB) (tenant acct : String) : Bool :=
  (findUser db tenant acct).isSome

/-- Embedding of `GetAccount` (src/balances.go:178-206): tenant
substitution, point read of `NilUsers`, error when the backend call
fails or the item is absent. -/
def GetAccount (fails : Bool) (db : DB) (tenantID accountID : String) : Except String User :=
  let t := defaultTenant tenantID
  if fails then .error "storage error"
  else
    match findUser db t accountID with
    | none => .error "uncaught error: empty user!"
    | some item =>
      .ok { accountID := item.accountID, amount := item.amount,
            version := item.version.getD 0 }

/-- Modelled from the spec: `SaveToTransactionTable` is defined outside
src/ (only its call sites are in src/balances.go).  Per the spec's
TransactionRecord description it writes exactly one audit record for
the attempt, with the given status, and returns an error when the
backend write fails. -/
def SaveToTransactionTable (fails : Bool) (db : DB) (tenantId : String)
    (tx : TransactionEntry) (status : Int) : Except String DB :=
  if fails then .error "failed to save transaction"
  else .ok { db with transactions := db.transactions ++
      [{ tenantID := tenantId, accountID := tx.accountID,
         transactionID := tx.systemTransactionID,
         fromAccount := tx.fromAccount, toAccount := tx.toAccount,
         amount := tx.amount, comment := tx.comment,
         transactionDate := tx.transactionDate, status := status,
         initiatorUUID := tx.initiatorUUID }] }

/-- The debit-side `LedgerEntry` literal of src/balances.go:319-327. -/
def debitLedgerEntry (env : Env) (tr : TransactionEntry) : LedgerEntry :=
  { tenantID := defaultTenant tr.tenantID, accountID := tr.fromAccount,
    amount := tr.amount, systemTransactionID := env.uid, type := "debit",
    time := env.now, initiatorUUID := tr.initiatorUUID }

/-- The credit-side `LedgerEntry` literal of src/balances.go:328-336. -/
def creditLedgerEntry (env : Env) (tr : TransactionEntry) : LedgerEntry :=
  { tenantID := defaultTenant tr.tenantID, accountID := tr.toAccount,
    amount := tr.amount, systemTransactionID := env.uid, type := "credit",
    time := env.now, initiatorUUID := tr.initiatorUUID }

/-- Embedding of `TransferCredits` (src/balances.go:241-476).  The
branch structure mirrors the Go function: empty-AccountID rejection,
tenant substitution, sender and receiver lookups, advisory balance
check, the two compound `TransactWriteItems` calls (balance update +
ledger append), the compensating `UpdateItem` rollback with the
original pre-debit version token, the audit-record writes, and the
`panic` calls on rollback failure and on audit-write failure. -/
def TransferCredits (env : Env) (db : DB) (tr : TransactionEntry) : Outcome × DB :=
  if tr.accountID = "" then
    (.err {} "you must provide Account ID, substitute it for FromAccount to mimic the older api", db)
  else
    let tenant := defaultTenant tr.tenantID
    let timestamp := env.now
    let uid := env.uid
    let transaction : TransactionEntry :=
      { tenantID := tenant, accountID := tr.fromAccount,
        systemTransactionID := uid, fromAccount := tr.fromAccount,
        toAccount := tr.toAccount, amount := tr.amount,
        comment := "Transfer credits", transactionDate := timestamp,
        status := some 1, initiatorUUID := tr.initiatorUUID }
    match GetAccount env.senderGetFails db tenant tr.accountID with
    | .error e =>
      let db1 := match SaveToTransactionTable env.saveFails db tenant transaction 1 with
        | .ok d => d
        | .error _ => db
      (.err { status := "error", code := "user_not_found",
              message := "Error in retrieving sender.",
              details := "Error in retrieving sender: " ++ e,
              timestamp := tr.timestamp,
              data := { uuid := tr.initiatorUUID, signedUUID := tr.signedUUID } } e,
       db1)
    | .ok sender =>
      match GetAccount env.receiverGetFails db tenant tr.toAccount with
      | .error e =>
        let db1 := match SaveToTransactionTable env.saveFails db tenant transaction 1 with
          | .ok d => d
          | .error _ => db
        (.err { status := "error", code := "user_not_found",
                message := "Error in retrieving receiver.",
                details := "Error in retrieving receiver: " ++ e,
                timestamp := tr.timestamp,
                data := { uuid := tr.initiatorUUID, signedUUID := tr.signedUUID } } e,
         db1)
      | .ok _receiver =>
        if tr.amount > sender.amount then
          let db1 := match SaveToTransactionTable env.saveFails db tenant transaction 1 with
            | .ok d => d
            | .error _ => db
          (.err { status := "error", code := "insufficient_balance",
                  message := "Insufficient balance to complete the transaction.",
                  details := "The sender does not have enough balance in their account.",
                  timestamp := tr.timestamp,
                  data := { uuid := tr.initiatorUUID, signedUUID := tr.signedUUID } }
             "insufficient balance",
           db1)
        else
          let debitEntry := debitLedgerEntry env tr
          let creditEntry := creditLedgerEntry env tr
          if env.marshalDebitFails then
            (.err {} "failed to marshal ledger entry", db)
          else if env.marshalCreditFails then
            (.err {} "failed to marshal ledger entry", db)
          else
            if env.debitTxFails || !(versionCondOK db tenant tr.fromAccount sender.version) then
              match SaveToTransactionTable env.saveFails db tenant transaction 1 with
              | .error e => (.panicked e, db)
              | .ok db1 =>
                (.err { status := "error", code := "debit_failed",
                        message := "Failed to debit from balance for user " ++ tr.fromAccount,
                        details := "Error: transact write failed",
                        timestamp := tr.timestamp,
                        data := { uuid := tr.initiatorUUID, signedUUID := tr.signedUUID } }
                   ("failed to debit from balance for user " ++ tr.fromAccount),
                 db1)
            else
              let db2 :=
                { applyAdjust db tenant tr.fromAccount (-tr.amount) env.debitNow with
                  ledger := db.ledger ++ [debitEntry] }
              if env.creditTxFails || !(receiverCondOK db2 tenant tr.toAccount) then
                if env.rollbackFails || !(versionCondOK db2 tenant tr.fromAccount sender.version) then
                  (.panicked ("failed to rollback debit for user " ++ tr.fromAccount), db2)
                else
                  let db3 := applyAdjust db2 tenant tr.fromAccount tr.amount env.rollbackNow
                  match SaveToTransactionTable env.saveFails db3 tenant transaction 1 with
                  | .error e => (.panicked e, db3)
                  | .ok db4 =>
                    (.err { status := "error", code := "credit_failed",
                            message := "Failed to credit to balance for user " ++ tr.toAccount,
                            details := "Error: transact write failed",
                            timestamp := tr.timestamp,
                            data := { uuid := tr.initiatorUUID, signedUUID := tr.signedUUID } }
                       ("failed to credit to balance for user " ++ tr.toAccount),
                     db4)
              else
                let db3 :=
                  { applyAdjust db2 tenant tr.toAccount tr.amount env.creditNow with
                    ledger := db2.ledger ++ [creditEntry] }
                match SaveToTransactionTable env.saveFails db3 tenant transaction 0 with
                | .error e => (.panicked e, db3)
                | .ok db4 =>
                  (.ok { status := "success", code := "successful_transaction",
                         message := "Transaction initiated successfully.",
                         data := { transactionID := uid, amount := tr.amount,
                                   currency := "SDG", uuid := tr.initiatorUUID,
                                   signedUUID := tr.signedUUID } },
                   db4)

/-- Number of ledger rows carrying a given system transaction id. -/
def countLedger (db : DB) (uid : String) : Nat :=
  (db.ledger.filter (fun e => e.systemTransactionID = uid)).length

/-- Embedding of `InquireBalance` (src/balances.go:211-234): tenant
substitution, point read, the stored `amount` on success. -/
def InquireBalance (fails : Bool) (db : DB) (tenantId accountID : String) : Except String Rat :=
  let t := defaultTenant tenantId
  if fails then .error ("failed to inquire balance for user " ++ accountID)
  else
    match findUser db t accountID with
    | none => .error ("user " ++ accountID ++ " does not exist")
    | some item => .ok item.amount

/-- Embedding of `CheckUsersExist` (src/balances.go:46-89): tenant
substitution, batch lookup, the ids without a matching row (in request
order) plus the `user_not_found` error when any are missing.  The Go
function returns `([]string, error)`; the error component is modelled
as an `Option String`, and a backend failure of the batch call as the
`Except.error` branch. -/
def CheckUsersExist (fails : Bool) (db : DB) (tenantId : String)
    (accountIds : List String) : Except String (List String × Option String) :=
  let t := defaultTenant tenantId
  if fails then .error "batch get failed"
  else
    let notFoundUsers := accountIds.filter (fun a => (findUser db t a).isNone)
    .ok (notFoundUsers, if notFoundUsers.isEmpty then none else some "user_not_found")

/-- Rows of the `TransactionsTable` matching the primary-key condition
`TenantID = :tenantId AND AccountID = :accountId`, in table order. -/
def txMatching (db : DB) (tenant acct : String) : List TxRecord :=
  db.transactions.filter (fun r => r.tenantID = tenant ∧ r.accountID = acct)

/-- Resumption from an `ExclusiveStartKey`: drop every row up to and
including the first one whose `TransactionID` equals the cursor. -/
def dropThroughTx (l : List TxRecord) (cursor : String) : List TxRecord :=
  match l with
  | [] => []
  | x :: xs => if x.transactionID = cursor then xs else dropThroughTx xs cursor

/-- One page of a DynamoDB query: after resuming from the cursor (empty
cursor = start of the partition), up to `limit` rows are evaluated; the
`LastEvaluatedKey` is returned exactly when the query stopped because
of the limit, i.e. when a full page was read. -/
def queryTxPage (rows : List TxRecord) (limit : Nat) (cursor : String) :
    List TxRecord × String :=
  let after := if cursor = "" then rows else dropThroughTx rows cursor
  let page := after.take limit
  let lastKey :=
    if limit ≠ 0 ∧ page.length = limit then
      match page.getLast? with
      | some r => r.transactionID
      | none => ""
    else ""
  (page, lastKey)

/-- Modelled from the spec: the `dynamodbav` struct tags of the Go
`LedgerEntry` struct (declared outside src/) under which
`GetTransactions` unmarshals a stored `TransactionsTable` row; the
attributes common to the stored record and the `LedgerEntry` view
(tenant, account, amount, transaction id, date, initiator) carry over
and the rest stay at their zero values. -/
def txToLedgerView (r : TxRecord) : LedgerEntry :=
  { tenantID := r.tenantID, accountID := r.accountID, amount := r.amount,
    systemTransactionID := r.transactionID, type := "",
    time := r.transactionDate, initiatorUUID := r.initiatorUUID }

/-- Modelled from the spec: the unmarshalling of a stored
`TransactionsTable` row back into the Go `TransactionEntry` struct
(declared outside src/); the stored attributes fill the corresponding
fields and the request-only fields stay at their zero values. -/
def txToEntryView (r : TxRecord) : TransactionEntry :=
  { tenantID := r.tenantID, accountID := r.accountID,
    systemTransactionID := r.transactionID, fromAccount := r.fromAccount,
    toAccount := r.toAccount, amount := r.amount, comment := r.comment,
    transactionDate := r.transactionDate, status := some r.status,
    initiatorUUID := r.initiatorUUID }

/-- Embedding of `GetTransactions` (src/balances.go:482-524): tenant
substitution, primary-key query on the `TransactionsTable` with limit
and optional `ExclusiveStartKey`, results unmarshalled into the
`LedgerEntry` view, new cursor = the `TransactionID` of the
`LastEvaluatedKey` (empty when the key is absent). -/
def GetTransactions (fails : Bool) (db : DB) (tenantID accountID : String)
    (limit : Nat) (lastTransactionID : String) :
    Except String (List LedgerEntry × String) :=
  let t := defaultTenant tenantID
  if fails then .error "failed to fetch transactions"
  else
    let (page, lastKey) := queryTxPage (txMatching db t accountID) limit lastTransactionID
    .ok (page.map txToLedgerView, lastKey)

/-- Embedding of `getTransactionsByIndex` (src/balances.go:551-591):
query on the `FromAccount`/`ToAccount` secondary index with
`ScanIndexForward: false` (most-recent-first, modelled as the reversed
table order), limit and optional cursor. -/
def getTransactionsByIndex (fails : Bool) (db : DB) (tenantID : String)
    (sideIsFrom : Bool) (accountID : String) (limit : Nat)
    (lastTransactionID : String) :
    Except String (List TransactionEntry × String) :=
  let t := defaultTenant tenantID
  if fails then .error "failed to fetch transactions"
  else
    let rows := (db.transactions.filter (fun r =>
      r.tenantID = t ∧ (if sideIsFrom then r.fromAccount = accountID
                        else r.toAccount = accountID))).reverse
    let (page, lastKey) := queryTxPage rows limit lastTransactionID
    .ok (page.map txToEntryView, lastKey)

/-- Embedding of `GetDetailedTransactions` (src/balances.go:529-548):
the "from"-side index page concatenated with the "to"-side index page,
with no merge-ordering or de-duplication. -/
def GetDetailedTransactions (fails : Bool) (db : DB) (tenantID accountID : String)
    (limit : Nat) : Except String (List TransactionEntry) :=
  let t := defaultTenant tenantID
  match getTransactionsByIndex fails db t true accountID limit "" with
  | .error e => .error e
  | .ok (sent, _) =>
    match getTransactionsByIndex fails db t false accountID limit "" with
    | .error e => .error e
    | .ok (received, _) => .ok (sent ++ received)

/-- Embedding of `GetTransaction` (src/balances.go:594-631): a point
`GetItem` at key (TenantID, TransactionID) first; on a miss, a fallback
query on (TenantID, AccountID) with `Limit: 1` — the limit applies to
the rows evaluated by the key condition *before* the
`TransactionID = :systemTxId` filter expression — returning `none`
(not an error) when nothing matches.  Note: this function performs no
tenant substitution. -/
def GetTransaction (fails : Bool) (db : DB)
    (tenantID accountID systemTransactionID : String) :
    Except String (Option TransactionEntry) :=
  if fails then .error "GetItem failed"
  else
    match db.transactions.find? (fun r =>
        r.tenantID = tenantID ∧ r.transactionID = systemTransactionID) with
    | some r => .ok (some (txToEntryView r))
    | none =>
      let evaluated := (txMatching db tenantID accountID).take 1
      match evaluated.filter (fun r => r.transactionID = systemTransactionID) with
      | [] => .ok none
      | r :: _ => .ok (some (txToEntryView r))

/-- The Go `TransactionFilter` struct: account, time range, status,
limit and continuation token; the opaque `LastEvaluatedKey` map is
modelled by the `TransactionID` token it carries. -/
structure TransactionFilter where
  accountID : String := ""
  startTime : Int := 0
  endTime : Int := 0
  transactionStatus : Option Int := none
  limit : Nat := 0
  lastEvaluatedKey : Option String := none
deriving Repr, DecidableEq

/-- Insertion into a list kept sorted by `TransactionDate` (the order
of the `TransactionDateIndex` secondary index). -/
def insertByDate (r : TxRecord) : List TxRecord → List TxRecord
  | [] => [r]
  | x :: xs => if r.transactionDate ≤ x.transactionDate then r :: x :: xs
               else x :: insertByDate r xs

/-- The `TransactionDateIndex` view of the table: rows stably sorted by
`TransactionDate`. -/
def sortByDate (l : List TxRecord) : List TxRecord :=
  l.foldr insertByDate []

/-- Embedding of `GetAllNilTransactions` (src/balances.go:718-797):
tenant substitution; when both time bounds are set the query runs on
the date-ordered index with the range in the key condition; the
account-side match (either direction) and the status match are filter
expressions, applied *after* the limit is applied to the evaluated
rows; limit defaults to 25; `ScanIndexForward: false`; the
continuation token is passed through verbatim. -/
def GetAllNilTransactions (fails : Bool) (db : DB) (tenantId : String)
    (filter : TransactionFilter) :
    Except String (List TransactionEntry × Option String) :=
  let t := defaultTenant tenantId
  if fails then .error "failed to fetch transactions"
  else
    let useDateIndex := filter.startTime ≠ 0 ∧ filter.endTime ≠ 0
    let keyRows :=
      if useDateIndex then
        (sortByDate db.transactions).filter (fun r =>
          r.tenantID = t ∧ filter.startTime ≤ r.transactionDate ∧
            r.transactionDate ≤ filter.endTime)
      else db.transactions.filter (fun r => r.tenantID = t)
    let ordered := keyRows.reverse
    let limit := if filter.limit = 0 then 25 else filter.limit
    let cursor := match filter.lastEvaluatedKey with
      | none => ""
      | some c => c
    let (evaluated, lastKey) := queryTxPage ordered limit cursor
    let page := evaluated.filter (fun r =>
      (filter.accountID == "" || r.fromAccount == filter.accountID ||
        r.toAccount == filter.accountID) &&
      (match filter.transactionStatus with
       | none => true
       | some s => r.status == s))
    .ok (page.map txToEntryView, if lastKey = "" then none else some lastKey)

/-- The audit record that a `TransferCredits` run appends for its
attempt: built from the `transaction` value of src/balances.go:253-264
and the status passed to the `SaveToTransactionTable` call site. -/
def transferAuditRecord (env : Env) (tr : TransactionEntry) (status : Int) : TxRecord :=
  { tenantID := defaultTenant tr.tenantID, accountID := tr.fromAccount,
    transactionID := env.uid, fromAccount := tr.fromAccount,
    toAccount := tr.toAccount, amount := tr.amount,
    comment := "Transfer credits", transactionDate := env.now,
    status := status, initiatorUUID := tr.initiatorUUID }

/-- Substituting the sentinel tenant is idempotent: the coordinator
substitutes once at src/balances.go:246-248 and the callees substitute
again on the already-substituted value. -/
theorem defaultTenant_idem (s : String) : defaultTenant (defaultTenant s) = defaultTenant s := by
  by_cases h : s = "" <;> simp [defaultTenant, h]

theorem adjustUser_tenantID (t a : String) (d : Rat) (v : Int) (u : UserItem) :
    (adjustUser t a d v u).tenantID = u.tenantID := by
  unfold adjustUser; split <;> rfl

theorem adjustUser_accountID (t a : String) (d : Rat) (v : Int) (u : UserItem) :
    (adjustUser t a d v u).accountID = u.accountID := by
  unfold adjustUser; split <;> rfl

/-- A conditional adjustment commutes with point reads: the read of the
updated table is the (possibly adjusted) read of the original table,
because the update rewrites rows in place and never changes a key. -/
theorem findUser_applyAdjust (db : DB) (t a : String) (d : Rat) (v : Int) (t2 a2 : String) :
    findUser (applyAdjust db t a d v) t2 a2 =
      (findUser db t2 a2).map (adjustUser t a d v) := by
  show (db.users.map (adjustUser t a d v)).find? _ = (db.users.find? _).map (adjustUser t a d v)
  rw [List.find?_map]
  have hpred : ((fun u : UserItem => decide (u.tenantID = t2 ∧ u.accountID = a2)) ∘
      adjustUser t a d v) = (fun u : UserItem => decide (u.tenantID = t2 ∧ u.accountID = a2)) := by
    funext u
    simp [Function.comp, adjustUser_tenantID, adjustUser_accountID]
  rw [hpred]

/-- The row found at a key satisfies that key. -/
theorem findUser_key {db : DB} {t a : String} {si : UserItem}
    (h : findUser db t a = some si) : si.tenantID = t ∧ si.accountID = a := by
  unfold findUser at h
  simpa using List.find?_some h

/-- The version precondition of the debit/rollback update holds against
the version token just read for that same row (src/balances.go:357,360:
`attribute_not_exists(Version) OR Version = :oldVersion` with
`:oldVersion = sender.Version`). -/
theorem versionCondOK_of_found {db : DB} {t a : String} {si : UserItem}
    (h : findUser db t a = some si) :
    versionCondOK db t a (si.version.getD 0) = true := by
  unfold versionCondOK
  rw [h]
  cases hv : si.version <;> simp [hv]

/-- After the debit committed, the rollback's version precondition
compares the fresh token written by the debit with the original one. -/
theorem versionCondOK_after_adjust {db : DB} {t a : String} (d : Rat) (v : Int) (o : Int)
    {si : UserItem} (h : findUser db t a = some si) :
    versionCondOK (applyAdjust db t a d v) t a o = (v == o) := by
  have hk := findUser_key h
  unfold versionCondOK
  rw [findUser_applyAdjust, h]
  simp [adjustUser, hk.1, hk.2]

theorem applyAdjust_transactions (db : DB) (t a : String) (d : Rat) (v : Int) :
    (applyAdjust db t a d v).transactions = db.transactions := rfl

theorem applyAdjust_users (db : DB) (t a : String) (d : Rat) (v : Int) :
    (applyAdjust db t a d v).users = db.users.map (adjustUser t a d v) := rfl

theorem applyAdjust_ledger (db : DB) (t a : String) (d : Rat) (v : Int) :
    (applyAdjust db t a d v).ledger = db.ledger := rfl

/-- A balance adjustment does not create or delete rows, so existence
checks are unaffected. -/
theorem receiverCondOK_applyAdjust (db : DB) (t a : String) (d : Rat) (v : Int)
    (t2 a2 : String) :
    receiverCondOK (applyAdjust db t a d v) t2 a2 = receiverCondOK db t2 a2 := by
  unfold receiverCondOK
  rw [findUser_applyAdjust]
  cases findUser db t2 a2 <;> rfl

/-- Inversion for a successful `GetAccount`: the returned `User` is the
unmarshalled view of the row found at the (substituted-tenant, account)
key. -/
theorem GetAccount_ok {fails : Bool} {db : DB} {t a : String} {u : User}
    (h : GetAccount fails db t a = .ok u) :
    ∃ item, findUser db (defaultTenant t) a = some item ∧
      u = { accountID := item.accountID, amount := item.amount,
            version := item.version.getD 0 } := by
  unfold GetAccount at h
  cases hf : fails with
  | true => rw [hf] at h; exact absurd h (by simp)
  | false =>
    rw [hf] at h
    simp only [Bool.false_eq_true, if_false] at h
    cases hfind : findUser db (defaultTenant t) a with
    | none => rw [hfind] at h; exact absurd h (by simp)
    | some item =>
      rw [hfind] at h
      exact ⟨item, rfl, (Except.ok.inj h).symm⟩

/-- In a table whose (tenant, account) keys are pairwise distinct, any
row matching a key equals the row `find?` returns for that key. -/
theorem find?_key_unique {l : List UserItem} {t a : String} {si u : UserItem}
    (hp : l.Pairwise (fun x y => x.tenantID ≠ y.tenantID ∨ x.accountID ≠ y.accountID))
    (hfind : l.find? (fun x => x.tenantID = t ∧ x.accountID = a) = some si)
    (hu : u ∈ l) (hk : u.tenantID = t ∧ u.accountID = a) : u = si := by
  induction l with
  | nil => cases hu
  | cons x xs ih =>
    rcases List.pairwise_cons.mp hp with ⟨hx, hp2⟩
    by_cases hpx : x.tenantID = t ∧ x.accountID = a
    · have hsi : si = x := by
        rw [List.find?_cons_of_pos _ (by simpa using hpx)] at hfind
        exact (Option.some.inj hfind).symm
      rcases List.mem_cons.mp hu with rfl | hu2
      · rw [hsi]
      · exfalso
        rcases hx u hu2 with hne | hne
        · exact hne (hpx.1.trans hk.1.symm)
        · exact hne (hpx.2.trans hk.2.symm)
    · rw [List.find?_cons_of_neg _ (by simpa using hpx)] at hfind
      rcases List.mem_cons.mp hu with rfl | hu2
      · exact absurd hk hpx
      · exact ih hp2 hfind hu2

/-- A credit-style adjustment (nonnegative delta) keeps every
nonnegative balance nonnegative. -/
theorem applyAdjust_nonneg_of_pos (db : DB) (t a : String) (d : Rat) (v : Int)
    (hd : 0 ≤ d) (hnn : ∀ u ∈ db.users, 0 ≤ u.amount) :
    ∀ u ∈ (applyAdjust db t a d v).users, 0 ≤ u.amount := by
  intro u2 hu2
  rcases List.mem_map.mp hu2 with ⟨u, hu, rfl⟩
  unfold adjustUser
  split
  · exact add_nonneg (hnn u hu) hd
  · exact hnn u hu

/-- The debit adjustment keeps every balance nonnegative when the
debited row's balance covers the amount and keys are unique. -/
theorem applyAdjust_nonneg_debit (db : DB) (t a : String) (v : Int) (amt : Rat)
    {si : UserItem}
    (hkeys : db.users.Pairwise (fun x y => x.tenantID ≠ y.tenantID ∨ x.accountID ≠ y.accountID))
    (hfind : findUser db t a = some si)
    (hle : amt ≤ si.amount)
    (hnn : ∀ u ∈ db.users, 0 ≤ u.amount) :
    ∀ u ∈ (applyAdjust db t a (-amt) v).users, 0 ≤ u.amount := by
  intro u2 hu2
  rcases List.mem_map.mp hu2 with ⟨u, hu, rfl⟩
  unfold adjustUser
  split
  case isTrue hk =>
    have : u = si := find?_key_unique hkeys hfind hu hk
    subst this
    simpa using hle
  case isFalse hk => exact hnn u hu

/-- The response code carried by a non-panic outcome (empty for a
panic, which aborts before any response value is returned). -/
def outcomeCode : Outcome → String
  | .ok r => r.code
  | .err r _ => r.code
  | .panicked _ => ""

/-- Whether the outcome is a `panic`. -/
def isPanic : Outcome → Bool
  | .panicked _ => true
  | _ => false

section Runs

variable (env : Env) (db : DB) (tr : TransactionEntry) (si ri : UserItem)

/-- Characterization of the fully successful run: both compound writes
commit, the ledger gains the debit/credit pair, and one success audit
record is written. -/
theorem transferCredits_success_run
    (hacct : tr.accountID ≠ "") (hfrom : tr.fromAccount = tr.accountID)
    (hsg : env.senderGetFails = false) (hrg : env.receiverGetFails = false)
    (hmd : env.marshalDebitFails = false) (hmc : env.marshalCreditFails = false)
    (hdt : env.debitTxFails = false) (hct : env.creditTxFails = false)
    (hsave : env.saveFails = false)
    (hs : findUser db (defaultTenant tr.tenantID) tr.accountID = some si)
    (hr : findUser db (defaultTenant tr.tenantID) tr.toAccount = some ri)
    (hamt : ¬ si.amount < tr.amount) :
    TransferCredits env db tr =
      (.ok { status := "success", code := "successful_transaction",
             message := "Transaction initiated successfully.",
             data := { transactionID := env.uid, amount := tr.amount, currency := "SDG",
                       uuid := tr.initiatorUUID, signedUUID := tr.signedUUID } },
       { users := (applyAdjust (applyAdjust db (defaultTenant tr.tenantID) tr.fromAccount
             (-tr.amount) env.debitNow) (defaultTenant tr.tenantID) tr.toAccount tr.amount
             env.creditNow).users,
         ledger := db.ledger ++ [debitLedgerEntry env tr, creditLedgerEntry env tr],
         transactions := db.transactions ++ [transferAuditRecord env tr 0] }) := by
  have hsf : findUser db (defaultTenant tr.tenantID) tr.fromAccount = some si := by
    rw [hfrom]; exact hs
  have hvc := versionCondOK_of_found hsf
  have hrc : receiverCondOK
      { applyAdjust db (defaultTenant tr.tenantID) tr.fromAccount (-tr.amount) env.debitNow with
        ledger := db.ledger ++ [debitLedgerEntry env tr] }
      (defaultTenant tr.tenantID) tr.toAccount = true := by
    show receiverCondOK (applyAdjust db _ _ _ _) _ _ = true
    rw [receiverCondOK_applyAdjust]
    unfold receiverCondOK
    rw [hr]
    rfl
  have hrc2 : receiverCondOK
      { users := List.map (adjustUser (defaultTenant tr.tenantID) tr.fromAccount (-tr.amount) env.debitNow) db.users,
        ledger := db.ledger ++ [debitLedgerEntry env tr], transactions := db.transactions }
      (defaultTenant tr.tenantID) tr.toAccount = true := by
    show receiverCondOK (applyAdjust db _ _ _ _) _ _ = true
    rw [receiverCondOK_applyAdjust]
    unfold receiverCondOK
    rw [hr]
    rfl
  unfold TransferCredits GetAccount SaveToTransactionTable transferAuditRecord
  simp [hacct, hsg, hrg, hmd, hmc, hdt, hct, hsave, defaultTenant_idem, hs, hr, hamt,
    hvc, hrc, hrc2, applyAdjust_transactions, applyAdjust_ledger, applyAdjust_users]

/-- Characterization of the success-path run whose final audit write
fails: the money moved, but the call panics instead of returning. -/
theorem transferCredits_successSavePanic_run
    (hacct : tr.accountID ≠ "") (hfrom : tr.fromAccount = tr.accountID)
    (hsg : env.senderGetFails = false) (hrg : env.receiverGetFails = false)
    (hmd : env.marshalDebitFails = false) (hmc : env.marshalCreditFails = false)
    (hdt : env.debitTxFails = false) (hct : env.creditTxFails = false)
    (hsave : env.saveFails = true)
    (hs : findUser db (defaultTenant tr.tenantID) tr.accountID = some si)
    (hr : findUser db (defaultTenant tr.tenantID) tr.toAccount = some ri)
    (hamt : ¬ si.amount < tr.amount) :
    (TransferCredits env db tr).1 = .panicked "failed to save transaction" := by
  have hsf : findUser db (defaultTenant tr.tenantID) tr.fromAccount = some si := by
    rw [hfrom]; exact hs
  have hvc := versionCondOK_of_found hsf
  have hrc : receiverCondOK
      { applyAdjust db (defaultTenant tr.tenantID) tr.fromAccount (-tr.amount) env.debitNow with
        ledger := db.ledger ++ [debitLedgerEntry env tr] }
      (defaultTenant tr.tenantID) tr.toAccount = true := by
    show receiverCondOK (applyAdjust db _ _ _ _) _ _ = true
    rw [receiverCondOK_applyAdjust]
    unfold receiverCondOK
    rw [hr]
    rfl
  have hrc2 : receiverCondOK
      { users := List.map (adjustUser (defaultTenant tr.tenantID) tr.fromAccount (-tr.amount) env.debitNow) db.users,
        ledger := db.ledger ++ [debitLedgerEntry env tr], transactions := db.transactions }
      (defaultTenant tr.tenantID) tr.toAccount = true := by
    show receiverCondOK (applyAdjust db _ _ _ _) _ _ = true
    rw [receiverCondOK_applyAdjust]
    unfold receiverCondOK
    rw [hr]
    rfl
  unfold TransferCredits GetAccount SaveToTransactionTable
  simp [hacct, hsg, hrg, hmd, hmc, hdt, hct, hsave, defaultTenant_idem, hs, hr, hamt,
    hvc, hrc, hrc2]

/-- Characterization of the debit-failure run (version conflict or
backend error on the first compound write): nothing committed, one
failure audit record, `debit_failed`. -/
theorem transferCredits_debitFail_run
    (hacct : tr.accountID ≠ "")
    (hsg : env.senderGetFails = false) (hrg : env.receiverGetFails = false)
    (hmd : env.marshalDebitFails = false) (hmc : env.marshalCreditFails = false)
    (hdt : env.debitTxFails = true)
    (hsave : env.saveFails = false)
    (hs : findUser db (defaultTenant tr.tenantID) tr.accountID = some si)
    (hr : findUser db (defaultTenant tr.tenantID) tr.toAccount = some ri)
    (hamt : ¬ si.amount < tr.amount) :
    TransferCredits env db tr =
      (.err { status := "error", code := "debit_failed",
              message := "Failed to debit from balance for user " ++ tr.fromAccount,
              details := "Error: transact write failed",
              timestamp := tr.timestamp,
              data := { uuid := tr.initiatorUUID, signedUUID := tr.signedUUID } }
         ("failed to debit from balance for user " ++ tr.fromAccount),
       { db with transactions := db.transactions ++ [transferAuditRecord env tr 1] }) := by
  unfold TransferCredits GetAccount SaveToTransactionTable transferAuditRecord
  simp [hacct, hsg, hrg, hmd, hmc, hdt, hsave, defaultTenant_idem, hs, hr, hamt]

/-- Characterization of the debit-failure run whose audit write also
fails: the call panics with the audit error. -/
theorem transferCredits_debitFailSavePanic_run
    (hacct : tr.accountID ≠ "")
    (hsg : env.senderGetFails = false) (hrg : env.receiverGetFails = false)
    (hmd : env.marshalDebitFails = false) (hmc : env.marshalCreditFails = false)
    (hdt : env.debitTxFails = true)
    (hsave : env.saveFails = true)
    (hs : findUser db (defaultTenant tr.tenantID) tr.accountID = some si)
    (hr : findUser db (defaultTenant tr.tenantID) tr.toAccount = some ri)
    (hamt : ¬ si.amount < tr.amount) :
    TransferCredits env db tr = (.panicked "failed to save transaction", db) := by
  unfold TransferCredits GetAccount SaveToTransactionTable
  simp [hacct, hsg, hrg, hmd, hmc, hdt, hsave, defaultTenant_idem, hs, hr, hamt]

/-- Characterization of the compensated credit-failure run: the debit
committed, the credit failed, the rollback commits (the fresh debit
token still matches the original one), one failure audit record is
written and the lone debit ledger entry remains. -/
theorem transferCredits_compensated_run
    (hacct : tr.accountID ≠ "") (hfrom : tr.fromAccount = tr.accountID)
    (hsg : env.senderGetFails = false) (hrg : env.receiverGetFails = false)
    (hmd : env.marshalDebitFails = false) (hmc : env.marshalCreditFails = false)
    (hdt : env.debitTxFails = false) (hct : env.creditTxFails = true)
    (hrb : env.rollbackFails = false) (hdn : env.debitNow = si.version.getD 0)
    (hsave : env.saveFails = false)
    (hs : findUser db (defaultTenant tr.tenantID) tr.accountID = some si)
    (hr : findUser db (defaultTenant tr.tenantID) tr.toAccount = some ri)
    (hamt : ¬ si.amount < tr.amount) :
    TransferCredits env db tr =
      (.err { status := "error", code := "credit_failed",
              message := "Failed to credit to balance for user " ++ tr.toAccount,
              details := "Error: transact write failed",
              timestamp := tr.timestamp,
              data := { uuid := tr.initiatorUUID, signedUUID := tr.signedUUID } }
         ("failed to credit to balance for user " ++ tr.toAccount),
       { users := (applyAdjust (applyAdjust db (defaultTenant tr.tenantID) tr.fromAccount
             (-tr.amount) env.debitNow) (defaultTenant tr.tenantID) tr.fromAccount tr.amount
             env.rollbackNow).users,
         ledger := db.ledger ++ [debitLedgerEntry env tr],
         transactions := db.transactions ++ [transferAuditRecord env tr 1] }) := by
  have hsf : findUser db (defaultTenant tr.tenantID) tr.fromAccount = some si := by
    rw [hfrom]; exact hs
  have hvc := versionCondOK_of_found hsf
  have hbeq : (env.debitNow == si.version.getD 0) = true := by simpa using hdn
  have hva : versionCondOK
      { applyAdjust db (defaultTenant tr.tenantID) tr.fromAccount (-tr.amount) env.debitNow with
        ledger := db.ledger ++ [debitLedgerEntry env tr] }
      (defaultTenant tr.tenantID) tr.fromAccount (si.version.getD 0) =
      (env.debitNow == si.version.getD 0) := by
    show versionCondOK (applyAdjust db _ _ _ _) _ _ _ = _
    exact versionCondOK_after_adjust _ _ _ hsf
  have hva2 : versionCondOK
      { users := List.map (adjustUser (defaultTenant tr.tenantID) tr.fromAccount (-tr.amount) env.debitNow) db.users,
        ledger := db.ledger ++ [debitLedgerEntry env tr], transactions := db.transactions }
      (defaultTenant tr.tenantID) tr.fromAccount (si.version.getD 0) =
      (env.debitNow == si.version.getD 0) := by
    show versionCondOK (applyAdjust db _ _ _ _) _ _ _ = _
    exact versionCondOK_after_adjust _ _ _ hsf
  unfold TransferCredits GetAccount SaveToTransactionTable transferAuditRecord
  simp [hacct, hsg, hrg, hmd, hmc, hdt, hct, hrb, hsave, defaultTenant_idem, hs, hr, hamt,
    hvc, hva, hva2, hbeq, applyAdjust_transactions, applyAdjust_ledger, applyAdjust_users]

/-- Characterization of the compensated credit-failure run whose audit
write fails: the rollback committed and then the call panics with the
audit error. -/
theorem transferCredits_compensatedSavePanic_run
    (hacct : tr.accountID ≠ "") (hfrom : tr.fromAccount = tr.accountID)
    (hsg : env.senderGetFails = false) (hrg : env.receiverGetFails = false)
    (hmd : env.marshalDebitFails = false) (hmc : env.marshalCreditFails = false)
    (hdt : env.debitTxFails = false) (hct : env.creditTxFails = true)
    (hrb : env.rollbackFails = false) (hdn : env.debitNow = si.version.getD 0)
    (hsave : env.saveFails = true)
    (hs : findUser db (defaultTenant tr.tenantID) tr.accountID = some si)
    (hr : findUser db (defaultTenant tr.tenantID) tr.toAccount = some ri)
    (hamt : ¬ si.amount < tr.amount) :
    (TransferCredits env db tr).1 = .panicked "failed to save transaction" := by
  have hsf : findUser db (defaultTenant tr.tenantID) tr.fromAccount = some si := by
    rw [hfrom]; exact hs
  have hvc := versionCondOK_of_found hsf
  have hbeq : (env.debitNow == si.version.getD 0) = true := by simpa using hdn
  have hva : versionCondOK
      { applyAdjust db (defaultTenant tr.tenantID) tr.fromAccount (-tr.amount) env.debitNow with
        ledger := db.ledger ++ [debitLedgerEntry env tr] }
      (defaultTenant tr.tenantID) tr.fromAccount (si.version.getD 0) =
      (env.debitNow == si.version.getD 0) := by
    show versionCondOK (applyAdjust db _ _ _ _) _ _ _ = _
    exact versionCondOK_after_adjust _ _ _ hsf
  have hva2 : versionCondOK
      { users := List.map (adjustUser (defaultTenant tr.tenantID) tr.fromAccount (-tr.amount) env.debitNow) db.users,
        ledger := db.ledger ++ [debitLedgerEntry env tr], transactions := db.transactions }
      (defaultTenant tr.tenantID) tr.fromAccount (si.version.getD 0) =
      (env.debitNow == si.version.getD 0) := by
    show versionCondOK (applyAdjust db _ _ _ _) _ _ _ = _
    exact versionCondOK_after_adjust _ _ _ hsf
  unfold TransferCredits GetAccount SaveToTransactionTable
  simp [hacct, hsg, hrg, hmd, hmc, hdt, hct, hrb, hsave, defaultTenant_idem, hs, hr, hamt,
    hvc, hva, hva2, hbeq]

/-- Characterization of the credit-failure run whose rollback also
fails (backend error, or the fresh debit token no longer matching the
original one): the call panics, leaving the post-debit state — the
debit's committed adjustment, with its fresh version token, is the
final state. -/
theorem transferCredits_rollbackPanic_run
    (hacct : tr.accountID ≠ "") (hfrom : tr.fromAccount = tr.accountID)
    (hsg : env.senderGetFails = false) (hrg : env.receiverGetFails = false)
    (hmd : env.marshalDebitFails = false) (hmc : env.marshalCreditFails = false)
    (hdt : env.debitTxFails = false) (hct : env.creditTxFails = true)
    (hrb : env.rollbackFails = true ∨ env.debitNow ≠ si.version.getD 0)
    (hs : findUser db (defaultTenant tr.tenantID) tr.accountID = some si)
    (hr : findUser db (defaultTenant tr.tenantID) tr.toAccount = some ri)
    (hamt : ¬ si.amount < tr.amount) :
    TransferCredits env db tr =
      (.panicked ("failed to rollback debit for user " ++ tr.fromAccount),
       { applyAdjust db (defaultTenant tr.tenantID) tr.fromAccount (-tr.amount) env.debitNow with
         ledger := db.ledger ++ [debitLedgerEntry env tr] }) := by
  have hsf : findUser db (defaultTenant tr.tenantID) tr.fromAccount = some si := by
    rw [hfrom]; exact hs
  have hvc := versionCondOK_of_found hsf
  have hva : versionCondOK
      { applyAdjust db (defaultTenant tr.tenantID) tr.fromAccount (-tr.amount) env.debitNow with
        ledger := db.ledger ++ [debitLedgerEntry env tr] }
      (defaultTenant tr.tenantID) tr.fromAccount (si.version.getD 0) =
      (env.debitNow == si.version.getD 0) := by
    show versionCondOK (applyAdjust db _ _ _ _) _ _ _ = _
    exact versionCondOK_after_adjust _ _ _ hsf
  unfold TransferCredits GetAccount
  rcases hrb with hrb | hrb
  · simp [hacct, hsg, hrg, hmd, hmc, hdt, hct, hrb, defaultTenant_idem, hs, hr, hamt, hvc]
  · have hbeq : (env.debitNow == si.version.getD 0) = false := by
      simpa using hrb
    simp [hacct, hsg, hrg, hmd, hmc, hdt, hct, defaultTenant_idem, hs, hr, hamt, hvc,
      hva, hbeq]

end Runs

section Claims

/-- C7, counterexample.  The claim says a transfer request with an empty
`from` (source account) field is rejected with no state touched; but the
code's emptiness check (src/balances.go:243) is on `AccountID`, not on
`FromAccount`.  A request with `FromAccount = ""` and a nonempty
`AccountID` is not rejected as malformed: here it proceeds to the sender
lookup and writes a failure TransactionRecord, so state is touched. -/
theorem transferCredits_emptyFrom_notRejected :
    (({ tenantID := "t", accountID := "A", fromAccount := "",
        toAccount := "B", amount := 1 } : TransactionEntry).fromAccount = "") ∧
    (TransferCredits {} {}
      { tenantID := "t", accountID := "A", fromAccount := "",
        toAccount := "B", amount := 1 }).2.transactions.length = 1 := by
  constructor
  · rfl
  · rfl

/-- C7, amended: for every transfer request whose `AccountID` field is
empty, `TransferCredits` rejects the request as malformed and returns an
error before touching any state: the store is returned unchanged (so no
account is mutated, no LedgerEntry and no TransactionRecord is written). -/
theorem transferCredits_emptyAccountID_rejects (env : Env) (db : DB)
    (tr : TransactionEntry) (h : tr.accountID = "") :
    TransferCredits env db tr =
      (.err {} "you must provide Account ID, substitute it for FromAccount to mimic the older api",
       db) := by
  unfold TransferCredits
  simp [h]

/-- C7, witness for the amended theorem at a concrete request. -/
theorem transferCredits_emptyAccountID_rejects_witness :
    TransferCredits {} {} { tenantID := "t", fromAccount := "A", toAccount := "B", amount := 5 } =
      (.err {} "you must provide Account ID, substitute it for FromAccount to mimic the older api",
       {}) :=
  transferCredits_emptyAccountID_rejects {} {} _ rfl

/-- C6: when the requested amount exceeds the sender's balance at check
time, `TransferCredits` writes exactly one failure TransactionRecord
(provided the audit write itself does not fail), returns the
`insufficient_balance` code with an `insufficient balance` error, and
leaves the user table and the ledger unchanged. -/
theorem transferCredits_insufficient (env : Env) (db : DB) (tr : TransactionEntry)
    (si ri : UserItem)
    (hacct : tr.accountID ≠ "")
    (hsg : env.senderGetFails = false)
    (hrg : env.receiverGetFails = false)
    (hsave : env.saveFails = false)
    (hs : findUser db (defaultTenant tr.tenantID) tr.accountID = some si)
    (hr : findUser db (defaultTenant tr.tenantID) tr.toAccount = some ri)
    (hamt : si.amount < tr.amount) :
    TransferCredits env db tr =
      (.err { status := "error", code := "insufficient_balance",
              message := "Insufficient balance to complete the transaction.",
              details := "The sender does not have enough balance in their account.",
              timestamp := tr.timestamp,
              data := { uuid := tr.initiatorUUID, signedUUID := tr.signedUUID } }
         "insufficient balance",
       { db with transactions := db.transactions ++ [transferAuditRecord env tr 1] }) := by
  unfold TransferCredits GetAccount SaveToTransactionTable transferAuditRecord
  simp [hacct, hsg, hrg, hsave, defaultTenant_idem, hs, hr, hamt]

/-- C6, witness: sender balance 100, transfer of 150. -/
theorem transferCredits_insufficient_witness :
    TransferCredits {} { users := [{ tenantID := "nil", accountID := "A", amount := 100, version := some 1 },
                                   { tenantID := "nil", accountID := "B", amount := 0, version := some 1 }] }
        { accountID := "A", fromAccount := "A", toAccount := "B", amount := 150 } =
      (.err { status := "error", code := "insufficient_balance",
              message := "Insufficient balance to complete the transaction.",
              details := "The sender does not have enough balance in their account.",
              timestamp := 0, data := {} }
         "insufficient balance",
       { users := [{ tenantID := "nil", accountID := "A", amount := 100, version := some 1 },
                   { tenantID := "nil", accountID := "B", amount := 0, version := some 1 }],
         transactions := [transferAuditRecord {}
           { accountID := "A", fromAccount := "A", toAccount := "B", amount := 150 } 1] }) :=
  transferCredits_insufficient {} _ _
    { tenantID := "nil", accountID := "A", amount := 100, version := some 1 }
    { tenantID := "nil", accountID := "B", amount := 0, version := some 1 }
    (by decide) rfl rfl rfl (by decide) (by decide) (by norm_num)

/-- C2: when the credit-step compound write fails after the debit
committed, `TransferCredits` synchronously issues the compensating
adjustment `+amount` to the sender, conditioned on the sender's
*original* pre-debit version token (the rollback commits exactly when
the fresh token written by the debit still equals the original one and
the backend call succeeds); if compensation fails the call ends in a
panic — a fatal signal distinct from an ordinary error return — and if
compensation succeeds the call writes a failure TransactionRecord,
restores the sender's balance, and returns the `credit_failed` code. -/
theorem transferCredits_creditFail_compensation (env : Env) (db : DB) (tr : TransactionEntry)
    (si ri : UserItem)
    (hacct : tr.accountID ≠ "")
    (hfrom : tr.fromAccount = tr.accountID)
    (hsg : env.senderGetFails = false)
    (hrg : env.receiverGetFails = false)
    (hmd : env.marshalDebitFails = false)
    (hmc : env.marshalCreditFails = false)
    (hdt : env.debitTxFails = false)
    (hct : env.creditTxFails = true)
    (hs : findUser db (defaultTenant tr.tenantID) tr.accountID = some si)
    (hr : findUser db (defaultTenant tr.tenantID) tr.toAccount = some ri)
    (hamt : ¬ si.amount < tr.amount) :
    ((env.rollbackFails = true ∨ env.debitNow ≠ si.version.getD 0) →
      TransferCredits env db tr =
        (.panicked ("failed to rollback debit for user " ++ tr.fromAccount),
         { applyAdjust db (defaultTenant tr.tenantID) tr.fromAccount (-tr.amount) env.debitNow with
           ledger := db.ledger ++ [debitLedgerEntry env tr] })) ∧
    ((env.rollbackFails = false ∧ env.debitNow = si.version.getD 0 ∧ env.saveFails = false) →
      TransferCredits env db tr =
        (.err { status := "error", code := "credit_failed",
                message := "Failed to credit to balance for user " ++ tr.toAccount,
                details := "Error: transact write failed",
                timestamp := tr.timestamp,
                data := { uuid := tr.initiatorUUID, signedUUID := tr.signedUUID } }
           ("failed to credit to balance for user " ++ tr.toAccount),
         { applyAdjust
             { applyAdjust db (defaultTenant tr.tenantID) tr.fromAccount (-tr.amount) env.debitNow with
               ledger := db.ledger ++ [debitLedgerEntry env tr] }
             (defaultTenant tr.tenantID) tr.fromAccount tr.amount env.rollbackNow with
           transactions := db.transactions ++ [transferAuditRecord env tr 1] }) ∧
      (findUser (TransferCredits env db tr).2 (defaultTenant tr.tenantID) tr.fromAccount).map
          (fun u => u.amount) = some si.amount) := by
  have hsf : findUser db (defaultTenant tr.tenantID) tr.fromAccount = some si := by
    rw [hfrom]; exact hs
  have hkey := findUser_key hsf
  have hvc := versionCondOK_of_found hsf
  have hrc : receiverCondOK
      { applyAdjust db (defaultTenant tr.tenantID) tr.fromAccount (-tr.amount) env.debitNow with
        ledger := db.ledger ++ [debitLedgerEntry env tr] }
      (defaultTenant tr.tenantID) tr.toAccount = true := by
    show receiverCondOK (applyAdjust db _ _ _ _) _ _ = true
    rw [receiverCondOK_applyAdjust]
    unfold receiverCondOK
    rw [hr]
    rfl
  have hva : versionCondOK
      { applyAdjust db (defaultTenant tr.tenantID) tr.fromAccount (-tr.amount) env.debitNow with
        ledger := db.ledger ++ [debitLedgerEntry env tr] }
      (defaultTenant tr.tenantID) tr.fromAccount (si.version.getD 0) =
      (env.debitNow == si.version.getD 0) := by
    show versionCondOK (applyAdjust db _ _ _ _) _ _ _ = _
    exact versionCondOK_after_adjust _ _ _ hsf
  have hrc2 : receiverCondOK
      { users := List.map (adjustUser (defaultTenant tr.tenantID) tr.fromAccount (-tr.amount) env.debitNow) db.users,
        ledger := db.ledger ++ [debitLedgerEntry env tr], transactions := db.transactions }
      (defaultTenant tr.tenantID) tr.toAccount = true := by
    show receiverCondOK (applyAdjust db _ _ _ _) _ _ = true
    rw [receiverCondOK_applyAdjust]
    unfold receiverCondOK
    rw [hr]
    rfl
  have hva2 : versionCondOK
      { users := List.map (adjustUser (defaultTenant tr.tenantID) tr.fromAccount (-tr.amount) env.debitNow) db.users,
        ledger := db.ledger ++ [debitLedgerEntry env tr], transactions := db.transactions }
      (defaultTenant tr.tenantID) tr.fromAccount (si.version.getD 0) =
      (env.debitNow == si.version.getD 0) := by
    show versionCondOK (applyAdjust db _ _ _ _) _ _ _ = _
    exact versionCondOK_after_adjust _ _ _ hsf
  constructor
  · intro hrb
    unfold TransferCredits GetAccount
    rcases hrb with hrb | hrb
    · simp [hacct, hsg, hrg, hmd, hmc, hdt, hct, hrb, defaultTenant_idem, hs, hr, hamt, hvc]
    · have hbeq : (env.debitNow == si.version.getD 0) = false := by
        simpa using hrb
      simp [hacct, hsg, hrg, hmd, hmc, hdt, hct, defaultTenant_idem, hs, hr, hamt, hvc,
        hva, hbeq]
  · rintro ⟨hrb, hdn, hsave⟩
    have heq := transferCredits_compensated_run env db tr si ri hacct hfrom hsg hrg hmd hmc
      hdt hct hrb hdn hsave hs hr hamt
    refine ⟨heq, ?_⟩
    rw [heq]
    show (findUser (applyAdjust (applyAdjust db (defaultTenant tr.tenantID) tr.fromAccount
        (-tr.amount) env.debitNow) (defaultTenant tr.tenantID) tr.fromAccount tr.amount
        env.rollbackNow) (defaultTenant tr.tenantID) tr.fromAccount).map (fun u => u.amount)
      = some si.amount
    rw [findUser_applyAdjust, findUser_applyAdjust, hsf]
    simp [adjustUser, hkey.1, hkey.2]

/-- C2, witness: sender A (balance 100, version 5), receiver B, credit
step fails, debit's fresh token collides with the original (same-second
clock), so the compensation commits and A's balance is restored. -/
theorem transferCredits_creditFail_compensation_witness :
    (findUser (TransferCredits
        { uid := "x1", now := 100, debitNow := 5, creditNow := 102, rollbackNow := 103,
          creditTxFails := true }
        { users := [{ tenantID := "t", accountID := "A", amount := 100, version := some 5 },
                    { tenantID := "t", accountID := "B", amount := 7, version := some 9 }] }
        { tenantID := "t", accountID := "A", fromAccount := "A", toAccount := "B",
          amount := 10 }).2 "t" "A").map (fun u => u.amount) = some 100 := by
  have h := (transferCredits_creditFail_compensation
      { uid := "x1", now := 100, debitNow := 5, creditNow := 102, rollbackNow := 103,
        creditTxFails := true }
      { users := [{ tenantID := "t", accountID := "A", amount := 100, version := some 5 },
                  { tenantID := "t", accountID := "B", amount := 7, version := some 9 }] }
      { tenantID := "t", accountID := "A", fromAccount := "A", toAccount := "B", amount := 10 }
      { tenantID := "t", accountID := "A", amount := 100, version := some 5 }
      { tenantID := "t", accountID := "B", amount := 7, version := some 9 }
      (by decide) rfl rfl rfl rfl rfl rfl rfl (by decide) (by decide) (by decide)).2
    ⟨rfl, rfl, rfl⟩
  exact h.2

/-- C1, counterexample.  The claim says the number of LedgerEntry rows
for a generated system_transaction_id is zero or exactly two, never
exactly one, and in particular that no lone debit remains after a
compensated credit failure.  Here a transfer fails at the credit step,
the compensation commits (and the call returns `credit_failed`), yet
exactly one ledger row — the debit — remains for the transaction id:
the rollback restores the balance but never removes the debit entry. -/
theorem transferCredits_loneDebit_counterexample :
    outcomeCode (TransferCredits
      { uid := "x1", now := 100, debitNow := 5, creditNow := 102, rollbackNow := 103,
        creditTxFails := true }
      { users := [{ tenantID := "t", accountID := "A", amount := 100, version := some 5 },
                  { tenantID := "t", accountID := "B", amount := 7, version := some 9 }] }
      { tenantID := "t", accountID := "A", fromAccount := "A", toAccount := "B",
        amount := 10 }).1 = "credit_failed" ∧
    countLedger
      { users := [{ tenantID := "t", accountID := "A", amount := 100, version := some 5 },
                  { tenantID := "t", accountID := "B", amount := 7, version := some 9 }] }
      "x1" = 0 ∧
    countLedger (TransferCredits
      { uid := "x1", now := 100, debitNow := 5, creditNow := 102, rollbackNow := 103,
        creditTxFails := true }
      { users := [{ tenantID := "t", accountID := "A", amount := 100, version := some 5 },
                  { tenantID := "t", accountID := "B", amount := 7, version := some 9 }] }
      { tenantID := "t", accountID := "A", fromAccount := "A", toAccount := "B",
        amount := 10 }).2 "x1" = 1 := by
  refine ⟨rfl, rfl, rfl⟩

/-- C1, amended: ledger rows for the generated transaction id come in
pairs only on the paths where the credit compound write commits; a
successful transfer adds exactly two rows, while a credit-step failure
followed by successful compensation leaves exactly one row — the lone
debit — for that id, because the compensation restores the balance but
does not delete the debit entry. -/
theorem transferCredits_ledgerPairs (env : Env) (db : DB) (tr : TransactionEntry)
    (si ri : UserItem)
    (hacct : tr.accountID ≠ "") (hfrom : tr.fromAccount = tr.accountID)
    (hsg : env.senderGetFails = false) (hrg : env.receiverGetFails = false)
    (hmd : env.marshalDebitFails = false) (hmc : env.marshalCreditFails = false)
    (hdt : env.debitTxFails = false) (hsave : env.saveFails = false)
    (hs : findUser db (defaultTenant tr.tenantID) tr.accountID = some si)
    (hr : findUser db (defaultTenant tr.tenantID) tr.toAccount = some ri)
    (hamt : ¬ si.amount < tr.amount) :
    (env.creditTxFails = false →
      countLedger (TransferCredits env db tr).2 env.uid = countLedger db env.uid + 2) ∧
    (env.creditTxFails = true → env.rollbackFails = false →
      env.debitNow = si.version.getD 0 →
      countLedger (TransferCredits env db tr).2 env.uid = countLedger db env.uid + 1 ∧
      outcomeCode (TransferCredits env db tr).1 = "credit_failed") := by
  constructor
  · intro hct
    rw [transferCredits_success_run env db tr si ri hacct hfrom hsg hrg hmd hmc hdt hct
      hsave hs hr hamt]
    simp [countLedger, debitLedgerEntry, creditLedgerEntry, List.filter_append]
  · intro hct hrb hdn
    rw [transferCredits_compensated_run env db tr si ri hacct hfrom hsg hrg hmd hmc hdt hct
      hrb hdn hsave hs hr hamt]
    constructor
    · simp [countLedger, debitLedgerEntry, List.filter_append]
    · rfl

/-- C1, witness for the amended theorem: a successful transfer adds
exactly the debit/credit pair. -/
theorem transferCredits_ledgerPairs_witness :
    countLedger (TransferCredits
      { uid := "x2", now := 100, debitNow := 101, creditNow := 102 }
      { users := [{ tenantID := "t", accountID := "A", amount := 100, version := some 5 },
                  { tenantID := "t", accountID := "B", amount := 7, version := some 9 }] }
      { tenantID := "t", accountID := "A", fromAccount := "A", toAccount := "B",
        amount := 10 }).2 "x2" =
    countLedger
      { users := [{ tenantID := "t", accountID := "A", amount := 100, version := some 5 },
                  { tenantID := "t", accountID := "B", amount := 7, version := some 9 }] }
      "x2" + 2 :=
  (transferCredits_ledgerPairs
      { uid := "x2", now := 100, debitNow := 101, creditNow := 102 }
      { users := [{ tenantID := "t", accountID := "A", amount := 100, version := some 5 },
                  { tenantID := "t", accountID := "B", amount := 7, version := some 9 }] }
      { tenantID := "t", accountID := "A", fromAccount := "A", toAccount := "B", amount := 10 }
      { tenantID := "t", accountID := "A", amount := 100, version := some 5 }
      { tenantID := "t", accountID := "B", amount := 7, version := some 9 }
      (by decide) rfl rfl rfl rfl rfl rfl rfl (by decide) (by decide) (by decide)).1 rfl

/-- C10: when the audit write (`SaveToTransactionTable`) fails,
`TransferCredits` panics instead of returning an error value, on the
debit-failure path, on the compensated credit-failure path, and on the
success path — so even a transfer whose money movement succeeded
terminates the process instead of returning its result. -/
theorem transferCredits_savePanic (env : Env) (db : DB) (tr : TransactionEntry)
    (si ri : UserItem)
    (hacct : tr.accountID ≠ "") (hfrom : tr.fromAccount = tr.accountID)
    (hsg : env.senderGetFails = false) (hrg : env.receiverGetFails = false)
    (hmd : env.marshalDebitFails = false) (hmc : env.marshalCreditFails = false)
    (hsave : env.saveFails = true)
    (hs : findUser db (defaultTenant tr.tenantID) tr.accountID = some si)
    (hr : findUser db (defaultTenant tr.tenantID) tr.toAccount = some ri)
    (hamt : ¬ si.amount < tr.amount) :
    (env.debitTxFails = true →
      (TransferCredits env db tr).1 = .panicked "failed to save transaction") ∧
    (env.debitTxFails = false → env.creditTxFails = true → env.rollbackFails = false →
      env.debitNow = si.version.getD 0 →
      (TransferCredits env db tr).1 = .panicked "failed to save transaction") ∧
    (env.debitTxFails = false → env.creditTxFails = false →
      (TransferCredits env db tr).1 = .panicked "failed to save transaction") := by
  refine ⟨fun hdt => ?_, fun hdt hct hrb hdn => ?_, fun hdt hct => ?_⟩
  · rw [transferCredits_debitFailSavePanic_run env db tr si ri hacct hsg hrg hmd hmc hdt
      hsave hs hr hamt]
  · exact transferCredits_compensatedSavePanic_run env db tr si ri hacct hfrom hsg hrg hmd
      hmc hdt hct hrb hdn hsave hs hr hamt
  · exact transferCredits_successSavePanic_run env db tr si ri hacct hfrom hsg hrg hmd hmc
      hdt hct hsave hs hr hamt

/-- C10, witness: on the success path with a failing audit write, the
call panics even though both compound writes committed. -/
theorem transferCredits_savePanic_witness :
    (TransferCredits
      { uid := "x3", now := 100, debitNow := 101, creditNow := 102, saveFails := true }
      { users := [{ tenantID := "t", accountID := "A", amount := 100, version := some 5 },
                  { tenantID := "t", accountID := "B", amount := 7, version := some 9 }] }
      { tenantID := "t", accountID := "A", fromAccount := "A", toAccount := "B",
        amount := 10 }).1 = .panicked "failed to save transaction" :=
  (transferCredits_savePanic
      { uid := "x3", now := 100, debitNow := 101, creditNow := 102, saveFails := true }
      { users := [{ tenantID := "t", accountID := "A", amount := 100, version := some 5 },
                  { tenantID := "t", accountID := "B", amount := 7, version := some 9 }] }
      { tenantID := "t", accountID := "A", fromAccount := "A", toAccount := "B", amount := 10 }
      { tenantID := "t", accountID := "A", amount := 100, version := some 5 }
      { tenantID := "t", accountID := "B", amount := 7, version := some 9 }
      (by decide) rfl rfl rfl rfl rfl rfl (by decide) (by decide) (by decide)).2.2 rfl rfl

/-- C3, counterexample.  The claim says every invocation writes exactly
one TransactionRecord, including the paths where marshalling a ledger
entry fails; but the marshal-failure path (src/balances.go:338-345)
returns before any `SaveToTransactionTable` call, so the store — in
particular the audit table — is returned unchanged: zero records. -/
theorem transferCredits_marshalFail_noRecord :
    TransferCredits
      { uid := "x4", now := 100, marshalDebitFails := true }
      { users := [{ tenantID := "t", accountID := "A", amount := 100, version := some 5 },
                  { tenantID := "t", accountID := "B", amount := 7, version := some 9 }] }
      { tenantID := "t", accountID := "A", fromAccount := "A", toAccount := "B",
        amount := 10 } =
    (.err {} "failed to marshal ledger entry",
     { users := [{ tenantID := "t", accountID := "A", amount := 100, version := some 5 },
                 { tenantID := "t", accountID := "B", amount := 7, version := some 9 }] }) := by
  rfl

/-- C3, amended: provided marshalling succeeds and the audit write
itself succeeds, every invocation whose `AccountID` is nonempty writes
exactly one TransactionRecord unless it ends in the compensation panic
(which aborts before the audit write, leaving zero records); the
malformed-request exit writes none. -/
theorem transferCredits_auditRecord (env : Env) (db : DB) (tr : TransactionEntry)
    (hmd : env.marshalDebitFails = false) (hmc : env.marshalCreditFails = false)
    (hsave : env.saveFails = false) :
    (tr.accountID = "" → (TransferCredits env db tr).2.transactions = db.transactions) ∧
    (tr.accountID ≠ "" →
      ((TransferCredits env db tr).2.transactions.length = db.transactions.length + 1 ∨
       (isPanic (TransferCredits env db tr).1 = true ∧
        (TransferCredits env db tr).2.transactions = db.transactions))) := by
  constructor
  · intro h
    unfold TransferCredits
    simp [h]
  · intro hacct
    unfold TransferCredits
    rw [if_neg hacct]
    cases hge : GetAccount env.senderGetFails db (defaultTenant tr.tenantID) tr.accountID with
    | error e =>
      left
      simp [hge, SaveToTransactionTable, hsave]
    | ok sender =>
      cases hge2 : GetAccount env.receiverGetFails db (defaultTenant tr.tenantID) tr.toAccount with
      | error e =>
        left
        simp [hge, hge2, SaveToTransactionTable, hsave]
      | ok receiver =>
        by_cases hins : sender.amount < tr.amount
        · left
          simp [hge, hge2, gt_iff_lt, hins, SaveToTransactionTable, hsave]
        · simp only [hge, hge2, gt_iff_lt, if_neg hins, hmd, hmc, Bool.false_eq_true, if_false]
          split
          · left
            simp [SaveToTransactionTable, hsave]
          · split
            · split
              · right
                exact ⟨rfl, rfl⟩
              · left
                simp [SaveToTransactionTable, hsave, applyAdjust_transactions]
            · left
              simp [SaveToTransactionTable, hsave, applyAdjust_transactions]

/-- C3, witness for the amended theorem at a successful concrete
transfer: exactly one record is appended. -/
theorem transferCredits_auditRecord_witness :
    (TransferCredits
      { uid := "x5", now := 100, debitNow := 101, creditNow := 102 }
      { users := [{ tenantID := "t", accountID := "A", amount := 100, version := some 5 },
                  { tenantID := "t", accountID := "B", amount := 7, version := some 9 }] }
      { tenantID := "t", accountID := "A", fromAccount := "A", toAccount := "B",
        amount := 10 }).2.transactions.length =
      ({ users := [{ tenantID := "t", accountID := "A", amount := 100, version := some 5 },
                   { tenantID := "t", accountID := "B", amount := 7, version := some 9 }] } :
        DB).transactions.length + 1 ∨
    (isPanic (TransferCredits
      { uid := "x5", now := 100, debitNow := 101, creditNow := 102 }
      { users := [{ tenantID := "t", accountID := "A", amount := 100, version := some 5 },
                  { tenantID := "t", accountID := "B", amount := 7, version := some 9 }] }
      { tenantID := "t", accountID := "A", fromAccount := "A", toAccount := "B",
        amount := 10 }).1 = true ∧
     (TransferCredits
      { uid := "x5", now := 100, debitNow := 101, creditNow := 102 }
      { users := [{ tenantID := "t", accountID := "A", amount := 100, version := some 5 },
                  { tenantID := "t", accountID := "B", amount := 7, version := some 9 }] }
      { tenantID := "t", accountID := "A", fromAccount := "A", toAccount := "B",
        amount := 10 }).2.transactions =
      ({ users := [{ tenantID := "t", accountID := "A", amount := 100, version := some 5 },
                   { tenantID := "t", accountID := "B", amount := 7, version := some 9 }] } :
        DB).transactions) :=
  (transferCredits_auditRecord
      { uid := "x5", now := 100, debitNow := 101, creditNow := 102 }
      { users := [{ tenantID := "t", accountID := "A", amount := 100, version := some 5 },
                  { tenantID := "t", accountID := "B", amount := 7, version := some 9 }] }
      { tenantID := "t", accountID := "A", fromAccount := "A", toAccount := "B", amount := 10 }
      rfl rfl rfl).2 (by decide)

/-- C5, counterexample.  The claim says the stored version strictly
increases on every successful mutation; but the fresh token is the
wall-clock second (`getCurrentTimestamp`, src/balances.go:808-816), so
a mutation whose clock value equals the stored version leaves it
unchanged.  Here a transfer succeeds (the debit committed) while the
debit's fresh token equals the sender's prior version 5: afterwards the
sender's version is still 5, not strictly greater. -/
theorem transferCredits_versionNotIncreased :
    outcomeCode (TransferCredits
      { uid := "x6", now := 100, debitNow := 5, creditNow := 102 }
      { users := [{ tenantID := "t", accountID := "A", amount := 100, version := some 5 },
                  { tenantID := "t", accountID := "B", amount := 7, version := some 9 }] }
      { tenantID := "t", accountID := "A", fromAccount := "A", toAccount := "B",
        amount := 10 }).1 = "successful_transaction" ∧
    (findUser
      { users := [{ tenantID := "t", accountID := "A", amount := 100, version := some 5 },
                  { tenantID := "t", accountID := "B", amount := 7, version := some 9 }] }
      "t" "A").map (fun u => u.version) = some (some 5) ∧
    (findUser (TransferCredits
      { uid := "x6", now := 100, debitNow := 5, creditNow := 102 }
      { users := [{ tenantID := "t", accountID := "A", amount := 100, version := some 5 },
                  { tenantID := "t", accountID := "B", amount := 7, version := some 9 }] }
      { tenantID := "t", accountID := "A", fromAccount := "A", toAccount := "B",
        amount := 10 }).2 "t" "A").map (fun u => u.version) = some (some 5) := by
  refine ⟨rfl, rfl, rfl⟩

/-- C5, amended: every committed conditional adjustment — debit,
credit, or compensation — replaces the account's stored version by the
clock token generated for that mutation: on a successful transfer the
sender's version becomes the debit-step token and the receiver's the
credit-step token; on a compensated credit failure the sender's version
becomes the rollback-step token; and when the rollback does not commit,
the final state carries the debit-step token the debit wrote.  The
version therefore strictly increases exactly when the mutation's token
strictly exceeds the prior version; wall-clock seconds give no such
guarantee (same-second mutations leave the version unchanged or not
strictly larger). -/
theorem transferCredits_versionIsFreshToken (env : Env) (db : DB) (tr : TransactionEntry)
    (si ri : UserItem)
    (hacct : tr.accountID ≠ "") (hfrom : tr.fromAccount = tr.accountID)
    (hne : tr.fromAccount ≠ tr.toAccount)
    (hsg : env.senderGetFails = false) (hrg : env.receiverGetFails = false)
    (hmd : env.marshalDebitFails = false) (hmc : env.marshalCreditFails = false)
    (hdt : env.debitTxFails = false)
    (hsave : env.saveFails = false)
    (hs : findUser db (defaultTenant tr.tenantID) tr.accountID = some si)
    (hr : findUser db (defaultTenant tr.tenantID) tr.toAccount = some ri)
    (hamt : ¬ si.amount < tr.amount) :
    (env.creditTxFails = false →
      (findUser (TransferCredits env db tr).2 (defaultTenant tr.tenantID) tr.fromAccount).map
          (fun u => u.version) = some (some env.debitNow) ∧
      (findUser (TransferCredits env db tr).2 (defaultTenant tr.tenantID) tr.toAccount).map
          (fun u => u.version) = some (some env.creditNow)) ∧
    (env.creditTxFails = true → env.rollbackFails = false →
      env.debitNow = si.version.getD 0 →
      (findUser (TransferCredits env db tr).2 (defaultTenant tr.tenantID) tr.fromAccount).map
          (fun u => u.version) = some (some env.rollbackNow)) ∧
    (env.creditTxFails = true →
      (env.rollbackFails = true ∨ env.debitNow ≠ si.version.getD 0) →
      (findUser (TransferCredits env db tr).2 (defaultTenant tr.tenantID) tr.fromAccount).map
          (fun u => u.version) = some (some env.debitNow)) := by
  have hsf : findUser db (defaultTenant tr.tenantID) tr.fromAccount = some si := by
    rw [hfrom]; exact hs
  have hkeyS := findUser_key hsf
  have hkeyR := findUser_key hr
  refine ⟨fun hct => ?_, fun hct hrb hdn => ?_, fun hct hrb => ?_⟩
  · rw [transferCredits_success_run env db tr si ri hacct hfrom hsg hrg hmd hmc hdt hct
      hsave hs hr hamt]
    constructor
    · show (findUser (applyAdjust (applyAdjust db (defaultTenant tr.tenantID) tr.fromAccount
          (-tr.amount) env.debitNow) (defaultTenant tr.tenantID) tr.toAccount tr.amount
          env.creditNow) (defaultTenant tr.tenantID) tr.fromAccount).map (fun u => u.version) =
        some (some env.debitNow)
      rw [findUser_applyAdjust, findUser_applyAdjust, hsf]
      simp [adjustUser, hkeyS.1, hkeyS.2, hne]
    · show (findUser (applyAdjust (applyAdjust db (defaultTenant tr.tenantID) tr.fromAccount
          (-tr.amount) env.debitNow) (defaultTenant tr.tenantID) tr.toAccount tr.amount
          env.creditNow) (defaultTenant tr.tenantID) tr.toAccount).map (fun u => u.version) =
        some (some env.creditNow)
      rw [findUser_applyAdjust, findUser_applyAdjust, hr]
      have hne2 : ¬ tr.toAccount = tr.fromAccount := fun h => hne h.symm
      simp [adjustUser, hkeyR.1, hkeyR.2, hne2]
  · rw [transferCredits_compensated_run env db tr si ri hacct hfrom hsg hrg hmd hmc hdt hct
      hrb hdn hsave hs hr hamt]
    show (findUser (applyAdjust (applyAdjust db (defaultTenant tr.tenantID) tr.fromAccount
        (-tr.amount) env.debitNow) (defaultTenant tr.tenantID) tr.fromAccount tr.amount
        env.rollbackNow) (defaultTenant tr.tenantID) tr.fromAccount).map (fun u => u.version) =
      some (some env.rollbackNow)
    rw [findUser_applyAdjust, findUser_applyAdjust, hsf]
    simp [adjustUser, hkeyS.1, hkeyS.2]
  · rw [transferCredits_rollbackPanic_run env db tr si ri hacct hfrom hsg hrg hmd hmc hdt hct
      hrb hs hr hamt]
    show (findUser (applyAdjust db (defaultTenant tr.tenantID) tr.fromAccount (-tr.amount)
        env.debitNow) (defaultTenant tr.tenantID) tr.fromAccount).map (fun u => u.version) =
      some (some env.debitNow)
    rw [findUser_applyAdjust, hsf]
    simp [adjustUser, hkeyS.1, hkeyS.2]

/-- C5, witness for the amended theorem: on a successful run both
versions become the fresh debit/credit tokens, and on a compensated
credit-failure run the sender's version becomes the rollback token. -/
theorem transferCredits_versionIsFreshToken_witness :
    ((findUser (TransferCredits
      { uid := "x7", now := 100, debitNow := 101, creditNow := 102 }
      { users := [{ tenantID := "t", accountID := "A", amount := 100, version := some 5 },
                  { tenantID := "t", accountID := "B", amount := 7, version := some 9 }] }
      { tenantID := "t", accountID := "A", fromAccount := "A", toAccount := "B",
        amount := 10 }).2 "t" "A").map (fun u => u.version) = some (some 101) ∧
    (findUser (TransferCredits
      { uid := "x7", now := 100, debitNow := 101, creditNow := 102 }
      { users := [{ tenantID := "t", accountID := "A", amount := 100, version := some 5 },
                  { tenantID := "t", accountID := "B", amount := 7, version := some 9 }] }
      { tenantID := "t", accountID := "A", fromAccount := "A", toAccount := "B",
        amount := 10 }).2 "t" "B").map (fun u => u.version) = some (some 102)) ∧
    (findUser (TransferCredits
      { uid := "x7", now := 100, debitNow := 5, creditNow := 102, rollbackNow := 103,
        creditTxFails := true }
      { users := [{ tenantID := "t", accountID := "A", amount := 100, version := some 5 },
                  { tenantID := "t", accountID := "B", amount := 7, version := some 9 }] }
      { tenantID := "t", accountID := "A", fromAccount := "A", toAccount := "B",
        amount := 10 }).2 "t" "A").map (fun u => u.version) = some (some 103) := by
  refine ⟨(transferCredits_versionIsFreshToken
      { uid := "x7", now := 100, debitNow := 101, creditNow := 102 }
      { users := [{ tenantID := "t", accountID := "A", amount := 100, version := some 5 },
                  { tenantID := "t", accountID := "B", amount := 7, version := some 9 }] }
      { tenantID := "t", accountID := "A", fromAccount := "A", toAccount := "B", amount := 10 }
      { tenantID := "t", accountID := "A", amount := 100, version := some 5 }
      { tenantID := "t", accountID := "B", amount := 7, version := some 9 }
      (by decide) rfl (by decide) rfl rfl rfl rfl rfl rfl (by decide) (by decide)
      (by decide)).1 rfl, ?_⟩
  exact (transferCredits_versionIsFreshToken
      { uid := "x7", now := 100, debitNow := 5, creditNow := 102, rollbackNow := 103,
        creditTxFails := true }
      { users := [{ tenantID := "t", accountID := "A", amount := 100, version := some 5 },
                  { tenantID := "t", accountID := "B", amount := 7, version := some 9 }] }
      { tenantID := "t", accountID := "A", fromAccount := "A", toAccount := "B", amount := 10 }
      { tenantID := "t", accountID := "A", amount := 100, version := some 5 }
      { tenantID := "t", accountID := "B", amount := 7, version := some 9 }
      (by decide) rfl (by decide) rfl rfl rfl rfl rfl rfl (by decide) (by decide)
      (by decide)).2.1 rfl rfl rfl

/-- C4, counterexample.  The claim says no committed mutation ever
leaves a balance negative; but `TransferCredits` never checks the sign
of the amount, and the advisory check `amount > sender.balance` passes
for any negative amount.  A successful transfer of -20 from A
(balance 10) to B (balance 5) commits a credit that leaves B at -15. -/
theorem transferCredits_negativeBalance :
    outcomeCode (TransferCredits
      { uid := "x8", now := 100, debitNow := 101, creditNow := 102 }
      { users := [{ tenantID := "t", accountID := "A", amount := 10, version := some 5 },
                  { tenantID := "t", accountID := "B", amount := 5, version := some 9 }] }
      { tenantID := "t", accountID := "A", fromAccount := "A", toAccount := "B",
        amount := -20 }).1 = "successful_transaction" ∧
    (findUser (TransferCredits
      { uid := "x8", now := 100, debitNow := 101, creditNow := 102 }
      { users := [{ tenantID := "t", accountID := "A", amount := 10, version := some 5 },
                  { tenantID := "t", accountID := "B", amount := 5, version := some 9 }] }
      { tenantID := "t", accountID := "A", fromAccount := "A", toAccount := "B",
        amount := -20 }).2 "t" "B").map (fun u => u.amount) = some (5 + (-20)) ∧
    ((5 + (-20) : Rat) < 0) := by
  refine ⟨rfl, rfl, by norm_num⟩

/-- C4, amended: provided the transfer amount is nonnegative, the
request's `AccountID` (the account whose balance is checked) is the
`FromAccount` that gets debited, and the table's (tenant, account) keys
are unique, every committed mutation of a `TransferCredits` run keeps
all previously nonnegative balances nonnegative: the advisory
sufficiency check covers the debit, and the credit and the compensation
only add a nonnegative amount. -/
theorem transferCredits_balancesNonneg (env : Env) (db : DB) (tr : TransactionEntry)
    (hamt0 : 0 ≤ tr.amount)
    (hfrom : tr.fromAccount = tr.accountID)
    (hkeys : db.users.Pairwise (fun x y => x.tenantID ≠ y.tenantID ∨ x.accountID ≠ y.accountID))
    (hnn : ∀ u ∈ db.users, 0 ≤ u.amount) :
    ∀ u ∈ (TransferCredits env db tr).2.users, 0 ≤ u.amount := by
  unfold TransferCredits
  by_cases hacct : tr.accountID = ""
  · simpa [hacct] using hnn
  · rw [if_neg hacct]
    cases hge : GetAccount env.senderGetFails db (defaultTenant tr.tenantID) tr.accountID with
    | error e =>
      cases hsv : env.saveFails <;>
        simpa [hge, SaveToTransactionTable, hsv] using hnn
    | ok sender =>
      cases hge2 : GetAccount env.receiverGetFails db (defaultTenant tr.tenantID) tr.toAccount with
      | error e =>
        cases hsv : env.saveFails <;>
          simpa [hge, hge2, SaveToTransactionTable, hsv] using hnn
      | ok receiver =>
        by_cases hins : sender.amount < tr.amount
        · cases hsv : env.saveFails <;>
            simpa [hge, hge2, gt_iff_lt, hins, SaveToTransactionTable, hsv] using hnn
        · simp only [hge, hge2, gt_iff_lt, if_neg hins]
          cases hm1 : env.marshalDebitFails with
          | true => simpa [hm1] using hnn
          | false =>
          cases hm2 : env.marshalCreditFails with
          | true => simpa [hm1, hm2] using hnn
          | false =>
          simp only [hm1, hm2, Bool.false_eq_true, if_false]
          obtain ⟨si, hfind, hview⟩ := GetAccount_ok hge
          rw [defaultTenant_idem] at hfind
          have hfindF : findUser db (defaultTenant tr.tenantID) tr.fromAccount = some si := by
            rw [hfrom]; exact hfind
          have hle : tr.amount ≤ si.amount := by
            have h1 : tr.amount ≤ sender.amount := not_lt.mp hins
            rwa [hview] at h1
          have h2 : ∀ u ∈ (applyAdjust db (defaultTenant tr.tenantID) tr.fromAccount
              (-tr.amount) env.debitNow).users, 0 ≤ u.amount :=
            applyAdjust_nonneg_debit db _ _ env.debitNow tr.amount hkeys hfindF hle hnn
          split
          · cases hsv : env.saveFails <;>
              simpa [SaveToTransactionTable, hsv] using hnn
          · split
            · split
              · exact h2
              · cases hsv : env.saveFails <;>
                  · simp [SaveToTransactionTable, hsv]
                    exact fun u hu => applyAdjust_nonneg_of_pos _ (defaultTenant tr.tenantID)
                      tr.fromAccount tr.amount env.rollbackNow hamt0 h2 u hu
            · cases hsv : env.saveFails <;>
                · simp [SaveToTransactionTable, hsv]
                  exact fun u hu => applyAdjust_nonneg_of_pos _ (defaultTenant tr.tenantID)
                    tr.toAccount tr.amount env.creditNow hamt0 h2 u hu

/-- C4, witness for the amended theorem: after a successful transfer of
10 from A (balance 100) to B (balance 7), all balances are
nonnegative. -/
theorem transferCredits_balancesNonneg_witness :
    ((TransferCredits
      { uid := "x9", now := 100, debitNow := 101, creditNow := 102 }
      { users := [{ tenantID := "t", accountID := "A", amount := 100, version := some 5 },
                  { tenantID := "t", accountID := "B", amount := 7, version := some 9 }] }
      { tenantID := "t", accountID := "A", fromAccount := "A", toAccount := "B",
        amount := 10 }).2.users.all (fun u => decide (0 ≤ u.amount))) = true := by
  have h := transferCredits_balancesNonneg
      { uid := "x9", now := 100, debitNow := 101, creditNow := 102 }
      { users := [{ tenantID := "t", accountID := "A", amount := 100, version := some 5 },
                  { tenantID := "t", accountID := "B", amount := 7, version := some 9 }] }
      { tenantID := "t", accountID := "A", fromAccount := "A", toAccount := "B", amount := 10 }
      (by norm_num) rfl (by decide) (by decide)
  rw [List.all_eq_true]
  intro u hu
  exact decide_eq_true (h u hu)

end Claims

section Pagination

/-- Resuming from the cursor that names the row at index `n` drops
exactly the first `n + 1` rows, provided transaction ids are unique in
the list. -/
theorem dropThroughTx_eq_drop {l : List TxRecord} {n : Nat}
    (hnodup : (l.map (fun r => r.transactionID)).Nodup)
    (hn : n < l.length) :
    dropThroughTx l l[n].transactionID = l.drop (n + 1) := by
  induction l generalizing n with
  | nil => simp at hn
  | cons x xs ih =>
    rw [List.map_cons, List.nodup_cons] at hnodup
    obtain ⟨hxnot, hnodup2⟩ := hnodup
    cases n with
    | zero =>
      show dropThroughTx (x :: xs) x.transactionID = xs
      unfold dropThroughTx
      simp
    | succ m =>
      have hm : m < xs.length := by simpa using hn
      have hidx : (x :: xs)[m + 1] = xs[m] := rfl
      have hx : ¬ x.transactionID = (x :: xs)[m + 1].transactionID := by
        rw [hidx]
        intro he
        exact hxnot (he ▸ List.mem_map.mpr ⟨xs[m], List.getElem_mem hm, rfl⟩)
      unfold dropThroughTx
      rw [if_neg hx, hidx]
      exact ih hnodup2 hm

end Pagination

section ClaimsTwo

/-- C8: for a stored history whose transaction ids are unique and
nonempty, calling `GetTransactions` with limit N (0 < N ≤ the number of
matching rows) yields the first N matching rows with a nonempty cursor
equal to the last row's transaction id; calling it again with that
cursor yields the next N rows, with no overlap and no gap (the two
pages concatenate to the first 2N rows); and the second cursor is empty
exactly when fewer than N rows remained — so iteration terminates
exactly when the returned cursor is empty. -/
theorem getTransactions_pagination (db : DB) (tenantID accountID : String) (N : Nat)
    (hN : 0 < N)
    (hnodup : ((txMatching db (defaultTenant tenantID) accountID).map
      (fun r => r.transactionID)).Nodup)
    (hne : ∀ r ∈ txMatching db (defaultTenant tenantID) accountID, r.transactionID ≠ "")
    (hlen : N ≤ (txMatching db (defaultTenant tenantID) accountID).length) :
    ∀ p1 c1, GetTransactions false db tenantID accountID N "" = .ok (p1, c1) →
      p1 = ((txMatching db (defaultTenant tenantID) accountID).take N).map txToLedgerView ∧
      c1 ≠ "" ∧
      ∀ p2 c2, GetTransactions false db tenantID accountID N c1 = .ok (p2, c2) →
        p2 = (((txMatching db (defaultTenant tenantID) accountID).drop N).take N).map
          txToLedgerView ∧
        p1 ++ p2 = ((txMatching db (defaultTenant tenantID) accountID).take (N + N)).map
          txToLedgerView ∧
        (c2 = "" ↔
          ((txMatching db (defaultTenant tenantID) accountID).drop N).length < N) := by
  set M := txMatching db (defaultTenant tenantID) accountID with hMdef
  have hN1 : N - 1 < M.length := by omega
  have hlen1 : (M.take N).length = N := by
    rw [List.length_take]
    exact min_eq_left hlen
  have hgl : (M.take N).getLast? = some M[N - 1] := by
    rw [List.getLast?_eq_getElem?, hlen1, List.getElem?_take, if_pos (by omega),
      List.getElem?_eq_getElem hN1]
  have hq1 : queryTxPage M N "" = (M.take N, M[N - 1].transactionID) := by
    unfold queryTxPage
    simp [hgl, hlen1, hN.ne']
  have hdrop : dropThroughTx M M[N - 1].transactionID = M.drop N := by
    rw [dropThroughTx_eq_drop hnodup hN1]
    congr 1
    omega
  have hc1ne : M[N - 1].transactionID ≠ "" := hne _ (List.getElem_mem hN1)
  intro p1 c1 h1
  rw [show GetTransactions false db tenantID accountID N "" =
      .ok ((queryTxPage M N "").1.map txToLedgerView, (queryTxPage M N "").2) from rfl,
    hq1] at h1
  obtain ⟨hp1, hc1⟩ : p1 = (M.take N).map txToLedgerView ∧ c1 = M[N - 1].transactionID := by
    have := Except.ok.inj h1
    exact ⟨congrArg Prod.fst this.symm, congrArg Prod.snd this.symm⟩
  refine ⟨hp1, by rw [hc1]; exact hc1ne, ?_⟩
  intro p2 c2 h2
  have hq2 : queryTxPage M N c1 = ((M.drop N).take N, (queryTxPage M N c1).2) := by
    unfold queryTxPage
    rw [if_neg (by rw [hc1]; exact hc1ne), hc1, hdrop]
  rw [show GetTransactions false db tenantID accountID N c1 =
      .ok ((queryTxPage M N c1).1.map txToLedgerView, (queryTxPage M N c1).2) from rfl] at h2
  obtain ⟨hp2, hc2⟩ : p2 = (queryTxPage M N c1).1.map txToLedgerView ∧
      c2 = (queryTxPage M N c1).2 := by
    have := Except.ok.inj h2
    exact ⟨congrArg Prod.fst this.symm, congrArg Prod.snd this.symm⟩
  have hp2v : p2 = ((M.drop N).take N).map txToLedgerView := by
    rw [hp2, hq2]
  refine ⟨hp2v, ?_, ?_⟩
  · rw [hp1, hp2v, ← List.map_append, ← List.take_add]
  · rw [hc2]
    unfold queryTxPage
    rw [if_neg (by rw [hc1]; exact hc1ne), hc1, hdrop]
    dsimp only
    by_cases hrem : (M.drop N).length < N
    · have hlt : ((M.drop N).take N).length ≠ N := by
        rw [List.length_take]
        omega
      rw [if_neg (fun hand => hlt hand.2)]
      simp only [true_iff]
      exact hrem
    · have hlen2 : ((M.drop N).take N).length = N := by
        rw [List.length_take]
        omega
      have hne2 : (M.drop N).take N ≠ [] := by
        intro h
        rw [h] at hlen2
        simp at hlen2
        omega
      obtain ⟨r, hrl⟩ := Option.isSome_iff_exists.mp (List.getLast?_isSome.mpr hne2)
      have hrmem : r ∈ M := List.drop_subset _ _ (List.take_subset _ _
        (List.mem_of_mem_getLast? hrl))
      rw [if_pos ⟨by omega, hlen2⟩, hrl]
      show r.transactionID = "" ↔ (M.drop N).length < N
      constructor
      · intro habs
        exact absurd habs (hne r hrmem)
      · intro habs
        exact absurd habs hrem

/-- A three-row history used to witness the pagination theorem. -/
def pageDB : DB :=
  { transactions :=
      [{ tenantID := "nil", accountID := "A", transactionID := "a", fromAccount := "A",
         toAccount := "B", amount := 1, comment := "", transactionDate := 1, status := 0,
         initiatorUUID := "" },
       { tenantID := "nil", accountID := "A", transactionID := "b", fromAccount := "A",
         toAccount := "B", amount := 1, comment := "", transactionDate := 2, status := 0,
         initiatorUUID := "" },
       { tenantID := "nil", accountID := "A", transactionID := "c", fromAccount := "B",
         toAccount := "A", amount := 1, comment := "", transactionDate := 3, status := 0,
         initiatorUUID := "" }] }

/-- C8, witness: paging a three-row history with limit 2 yields a first
page of 2 rows with cursor "b", a second page of the remaining row with
an empty cursor (iteration stops), and the two pages concatenate to the
first four (i.e. all three) rows with no overlap or gap. -/
theorem getTransactions_pagination_witness :
    GetTransactions false pageDB "" "A" 2 "" =
      .ok (((txMatching pageDB (defaultTenant "") "A").take 2).map txToLedgerView, "b") ∧
    GetTransactions false pageDB "" "A" 2 "b" =
      .ok ((((txMatching pageDB (defaultTenant "") "A").drop 2).take 2).map txToLedgerView,
        "") ∧
    ((txMatching pageDB (defaultTenant "") "A").take 2).map txToLedgerView ++
        (((txMatching pageDB (defaultTenant "") "A").drop 2).take 2).map txToLedgerView =
      ((txMatching pageDB (defaultTenant "") "A").take (2 + 2)).map txToLedgerView ∧
    (("" : String) = "" ↔ ((txMatching pageDB (defaultTenant "") "A").drop 2).length < 2) := by
  have h0 : GetTransactions false pageDB "" "A" 2 "" =
      .ok (((txMatching pageDB (defaultTenant "") "A").take 2).map txToLedgerView, "b") := by
    rfl
  have h1 : GetTransactions false pageDB "" "A" 2 "b" =
      .ok ((((txMatching pageDB (defaultTenant "") "A").drop 2).take 2).map txToLedgerView,
        "") := by
    rfl
  have H := getTransactions_pagination pageDB "" "A" 2 (by norm_num) (by decide) (by decide)
    (by decide)
  obtain ⟨hp1, hc1, H2⟩ := H _ "b" h0
  obtain ⟨hp2, happ, hiff⟩ := H2 _ "" h1
  exact ⟨h0, h1, happ, hiff⟩

/-- A one-row history stored under the sentinel tenant "nil", used to
exhibit the missing substitution in `GetTransaction`. -/
def sentinelRow : TxRecord :=
  { tenantID := "nil", accountID := "A", transactionID := "x", fromAccount := "A",
    toAccount := "B", amount := 1, comment := "", transactionDate := 0, status := 0,
    initiatorUUID := "" }

/-- C9, counterexample.  The claim says every public operation treats
an empty tenant id like the sentinel "nil"; but `GetTransaction`
(src/balances.go:594-631) — the by-id history lookup — passes the
tenant through with no substitution.  On a store holding the
transaction under tenant "nil", the call with tenant "" finds nothing
while the call with "nil" returns the record. -/
theorem getTransaction_tenantSentinel_counterexample :
    GetTransaction false { transactions := [sentinelRow] } "" "A" "x" = .ok none ∧
    GetTransaction false { transactions := [sentinelRow] } "nil" "A" "x" =
      .ok (some (txToEntryView sentinelRow)) ∧
    some (txToEntryView sentinelRow) ≠ (none : Option TransactionEntry) := by
  refine ⟨rfl, rfl, by decide⟩

/-- C9, amended: every public operation that performs the sentinel
substitution — the existence check, account read, balance inquiry,
transfer, and the history queries other than the by-id lookup — gives
the same result on an empty tenant id as on the sentinel "nil";
`GetTransaction`, the by-id lookup, is the exception: it uses the
tenant verbatim. -/
theorem tenantSentinel_default :
    (∀ (f : Bool) (db : DB) (ids : List String),
      CheckUsersExist f db "" ids = CheckUsersExist f db "nil" ids) ∧
    (∀ (f : Bool) (db : DB) (a : String),
      GetAccount f db "" a = GetAccount f db "nil" a) ∧
    (∀ (f : Bool) (db : DB) (a : String),
      InquireBalance f db "" a = InquireBalance f db "nil" a) ∧
    (∀ (env : Env) (db : DB) (tr : TransactionEntry),
      TransferCredits env db { tr with tenantID := "" } =
        TransferCredits env db { tr with tenantID := "nil" }) ∧
    (∀ (f : Bool) (db : DB) (a : String) (limit : Nat) (cursor : String),
      GetTransactions f db "" a limit cursor = GetTransactions f db "nil" a limit cursor) ∧
    (∀ (f : Bool) (db : DB) (a : String) (limit : Nat),
      GetDetailedTransactions f db "" a limit = GetDetailedTransactions f db "nil" a limit) ∧
    (∀ (f : Bool) (db : DB) (filter : TransactionFilter),
      GetAllNilTransactions f db "" filter = GetAllNilTransactions f db "nil" filter) := by
  refine ⟨fun f db ids => rfl, fun f db a => rfl, fun f db a => rfl, fun env db tr => rfl,
    fun f db a limit cursor => rfl, fun f db a limit => rfl, fun f db filter => rfl⟩

end ClaimsTwo

end Ledger
